import Mathlib

/-
  Verification of the logseq-mcp transport client, domain normalizer and
  operation services, shallowly embedded from the Python sources
  (src/client/base.py, src/client/logseq.py, src/models/responses.py,
  src/models/schemas.py, src/services/pages.py, src/services/blocks.py,
  src/services/queries.py).
-/

namespace LogseqMCP

/-- JSON values as exchanged with the remote API. Numbers are modelled as
integers, which covers every payload appearing in the repository. -/
inductive Json where
  | null : Json
  | boolean : Bool → Json
  | num : Int → Json
  | str : String → Json
  | arr : List Json → Json
  | obj : List (String × Json) → Json

/-- First value bound to a key in a JSON object field list, mirroring a
Python dict lookup with dict.get. -/
def jget : List (String × Json) → String → Option Json
  | [], _ => none
  | (k, v) :: rest, key => if k = key then some v else jget rest key

/-- Whether a JSON value is an object, mirroring isinstance(x, dict). -/
def Json.isObj : Json → Bool
  | Json.obj _ => true
  | _ => false

/-- Field list of a JSON object, empty for any other value. -/
def Json.objFields : Json → List (String × Json)
  | Json.obj m => m
  | _ => []

/-! ## Transport client (src/client/base.py)

BaseAPIClient holds a connection profile and executes
_make_request(method, args, timeout) under a tenacity AsyncRetrying loop
with stop_after_attempt(max_retries) and reraise=True. The AsyncRetrying
call passes no retry predicate, so tenacity uses its default and retries
every exception raised inside the attempt body. -/

/-- Error taxonomy of src/utils/errors.py restricted to the kinds raised
by BaseAPIClient._make_request. -/
inductive LogseqError where
  | connectionError : String → LogseqError
  | authenticationError : String → LogseqError
  | apiError : String → LogseqError
  deriving Repr, DecidableEq

/-- What the backend does on one attempt: raise httpx.TimeoutException,
raise httpx.NetworkError, or return an HTTP response carrying a status
code, a text body, and the outcome of parsing that body as JSON. -/
inductive AttemptResult where
  | timeoutRaised : AttemptResult
  | networkRaised : AttemptResult
  | httpResponse : Nat → String → Option Json → AttemptResult

/-- Connection profile stored by BaseAPIClient.__init__: base URL already
stripped of trailing slashes, bearer token, default timeout in seconds and
the retry budget. -/
structure ConnectionProfile where
  baseUrl : String
  apiKey : String
  timeout : Int := 10
  maxRetries : Nat := 3
  deriving Repr

/-- base_url.rstrip of the slash character, as in BaseAPIClient.__init__. -/
def rstripSlash (s : String) : String :=
  String.mk (s.toList.reverse.dropWhile (fun c => c = '/') |>.reverse)

/-- Profile construction from the BaseAPIClient.__init__ arguments. -/
def mkProfile (baseUrl apiKey : String) (timeout : Int := 10) (maxRetries : Nat := 3) :
    ConnectionProfile :=
  { baseUrl := rstripSlash baseUrl, apiKey := apiKey,
    timeout := timeout, maxRetries := maxRetries }

/-- Python truncation response.text up to 500 characters, as in the line
body = response.text up to 500 if response.text else the empty string. -/
def truncate500 (s : String) : String :=
  String.mk (s.toList.take 500)

/-- One attempt of the body of the retry loop in _make_request: the two
transport exception handlers, then the status classification in source
order, then JSON parsing of a success body. -/
def classifyAttempt (baseUrl : String) (timeout : Int) :
    AttemptResult → Except LogseqError Json
  | AttemptResult.timeoutRaised =>
      Except.error (LogseqError.connectionError
        ("Request timeout after " ++ toString timeout ++ "s"))
  | AttemptResult.networkRaised =>
      Except.error (LogseqError.connectionError
        ("Failed to connect to " ++ baseUrl))
  | AttemptResult.httpResponse status text parsed =>
      if status = 401 ∨ status = 403 then
        Except.error (LogseqError.authenticationError ("HTTP " ++ toString status))
      else if 400 ≤ status then
        Except.error (LogseqError.apiError
          ("HTTP " ++ toString status ++ ": " ++ truncate500 text))
      else
        match parsed with
        | some j => Except.ok j
        | none => Except.error (LogseqError.apiError "Invalid JSON response from Logseq API")

/-- The tenacity AsyncRetrying loop with stop_after_attempt and
reraise=True and the default retry predicate, which retries every failed
attempt. Attempts are numbered from k; the loop stops at the first
success, or reraises the failure of attempt k once k+1 completed attempts
reach the stop bound. The fuel argument is initialized to the stop bound
by tenacityRun and never runs out before the stop condition fires.
Returns the outcome together with the number of attempts executed. -/
def tenacityGo (outcome : Nat → Except LogseqError Json) (stopAfter : Nat) :
    Nat → Nat → Except LogseqError Json × Nat
  | k, 0 =>
      match outcome k with
      | Except.ok j => (Except.ok j, k + 1)
      | Except.error e => (Except.error e, k + 1)
  | k, fuel + 1 =>
      match outcome k with
      | Except.ok j => (Except.ok j, k + 1)
      | Except.error e =>
          if stopAfter ≤ k + 1 then (Except.error e, k + 1)
          else tenacityGo outcome stopAfter (k + 1) fuel

/-- Run the retry loop from attempt 0 with fuel equal to the stop bound. -/
def tenacityRun (outcome : Nat → Except LogseqError Json) (stopAfter : Nat) :
    Except LogseqError Json × Nat :=
  tenacityGo outcome stopAfter 0 stopAfter

/-- Per call timeout resolution, the Python line
timeout = timeout or self.timeout: a missing or falsy (zero) override
leaves the profile default in force. -/
def effectiveTimeout (profileTimeout : Int) (override : Option Int) : Int :=
  match override with
  | none => profileTimeout
  | some t => if t = 0 then profileTimeout else t

/-- The HTTP request issued on each attempt of one _make_request call. -/
structure HttpRequest where
  path : String
  payload : Json
  timeoutUsed : Int

/-- Observable outcome of one _make_request call: final result, number of
backend invocations, and the request posted on every attempt. -/
structure CallTrace where
  result : Except LogseqError Json
  attempts : Nat
  request : HttpRequest

/-- BaseAPIClient._make_request: builds the payload dict with keys method
and args, resolves the per call timeout, posts to /api on each attempt and
classifies each outcome, under the tenacity retry loop. The backend maps
the attempt index to the behavior observed on that attempt. -/
def makeRequest (profile : ConnectionProfile) (method : String) (args : List Json)
    (timeoutOverride : Option Int) (backend : Nat → AttemptResult) : CallTrace :=
  let payload := Json.obj [("method", Json.str method), ("args", Json.arr args)]
  let t := effectiveTimeout profile.timeout timeoutOverride
  let outcome := fun k => classifyAttempt profile.baseUrl t (backend k)
  let r := tenacityRun outcome profile.maxRetries
  { result := r.1, attempts := r.2,
    request := { path := "/api", payload := payload, timeoutUsed := t } }

/-! ## LogseqClient method shaping (src/client/logseq.py)

Each client method forwards one fixed remote method name and a positional
argument list to _make_request. We record exactly that pair. -/

/-- The (method, args) pair a LogseqClient method hands to _make_request. -/
structure RpcCall where
  method : String
  args : List Json

/-- A Python optional string as a JSON argument: None becomes null. -/
def jsonOfOptionStr : Option String → Json
  | none => Json.null
  | some s => Json.str s

/-- LogseqClient.insert_block. -/
def clientInsertBlock (parent : Option String) (content : String)
    (options : List (String × Json)) : RpcCall :=
  ⟨"logseq.Editor.insertBlock", [jsonOfOptionStr parent, Json.str content, Json.obj options]⟩

/-- LogseqClient.update_block. -/
def clientUpdateBlock (uuid content : String) (options : List (String × Json)) : RpcCall :=
  ⟨"logseq.Editor.updateBlock", [Json.str uuid, Json.str content, Json.obj options]⟩

/-- LogseqClient.delete_block. -/
def clientDeleteBlock (uuid : String) : RpcCall :=
  ⟨"logseq.Editor.removeBlock", [Json.str uuid]⟩

/-- LogseqClient.get_block. -/
def clientGetBlock (uuid : String) : RpcCall :=
  ⟨"logseq.Editor.getBlock", [Json.str uuid]⟩

/-- LogseqClient.move_block. -/
def clientMoveBlock (uuid targetUuid : String) (options : List (String × Json)) : RpcCall :=
  ⟨"logseq.Editor.moveBlock", [Json.str uuid, Json.str targetUuid, Json.obj options]⟩

/-- LogseqClient.insert_batch_blocks. -/
def clientInsertBatchBlocks (parent : String) (blocks : List Json) : RpcCall :=
  ⟨"logseq.Editor.insertBatchBlock", [Json.str parent, Json.arr blocks]⟩

/-- LogseqClient.get_page_blocks_tree. -/
def clientGetPageBlocksTree (pageName : String) : RpcCall :=
  ⟨"logseq.Editor.getPageBlocksTree", [Json.str pageName]⟩

/-- LogseqClient.create_page: a falsy properties argument (None or the
empty dict) is replaced by the empty dict before shipping. -/
def clientCreatePage (name : String) (properties : Option (List (String × Json)))
    (options : List (String × Json)) : RpcCall :=
  ⟨"logseq.Editor.createPage",
    [Json.str name, Json.obj (match properties with | none => [] | some p => p),
     Json.obj options]⟩

/-- LogseqClient.get_page. -/
def clientGetPage (ident : String) (includeChildren : Bool) : RpcCall :=
  ⟨"logseq.Editor.getPage",
    [Json.str ident, Json.obj [("includeChildren", Json.boolean includeChildren)]]⟩

/-- LogseqClient.get_all_pages: args is the singleton repo list when repo
is truthy (present and non-empty), else the empty list. -/
def clientGetAllPages (repo : Option String) : RpcCall :=
  ⟨"logseq.Editor.getAllPages",
    match repo with
    | some r => if r = "" then [] else [Json.str r]
    | none => []⟩

/-- LogseqClient.delete_page. -/
def clientDeletePage (name : String) : RpcCall :=
  ⟨"logseq.Editor.deletePage", [Json.str name]⟩

/-- LogseqClient.rename_page. -/
def clientRenamePage (oldName newName : String) : RpcCall :=
  ⟨"logseq.Editor.renamePage", [Json.str oldName, Json.str newName]⟩

/-- LogseqClient.q. -/
def clientQ (query : String) (inputs : List Json) : RpcCall :=
  ⟨"logseq.DB.q", Json.str query :: inputs⟩

/-- LogseqClient.datascript_query. -/
def clientDatascriptQuery (query : String) (inputs : List Json) : RpcCall :=
  ⟨"logseq.DB.datascriptQuery", Json.str query :: inputs⟩

/-- LogseqClient.get_current_graph. -/
def clientGetCurrentGraph : RpcCall :=
  ⟨"logseq.App.getCurrentGraph", []⟩

/-- LogseqClient.git_status. -/
def clientGitStatus : RpcCall :=
  ⟨"logseq.Git.status", []⟩

/-! ## Typed input schemas (src/models/schemas.py) -/

/-- The clean_block_refs field validator of InsertBlockInput: a string of
shape two opening parentheses, payload, two closing parentheses is
replaced by the payload, anything else is returned unchanged. -/
def cleanBlockRef (s : String) : String :=
  if s.toList.take 2 = ['(', '('] ∧ s.toList.reverse.take 2 = [')', ')'] then
    String.mk ((s.toList.drop 2).take (s.toList.length - 4))
  else s

/-- InsertBlockInput after pydantic validation. -/
structure InsertBlockInput where
  parentBlock : Option String
  content : String
  isPageBlock : Bool
  before : Bool
  customUuid : Option String
  properties : Option (List (String × Json))

/-- Constructing an InsertBlockInput: the clean_block_refs validator runs
on the parent_block and custom_uuid fields (None passes through). -/
def mkInsertBlockInput (parentBlock : Option String) (content : String)
    (isPageBlock : Bool := false) (before : Bool := false)
    (customUuid : Option String := none)
    (properties : Option (List (String × Json)) := none) : InsertBlockInput :=
  { parentBlock := parentBlock.map cleanBlockRef,
    content := content, isPageBlock := isPageBlock, before := before,
    customUuid := customUuid.map cleanBlockRef,
    properties := properties }

/-- UpdateBlockInput after pydantic validation. This model declares no
field validator, so its fields are stored as given. -/
structure UpdateBlockInput where
  uuid : String
  content : String
  properties : Option (List (String × Json))

/-- Constructing an UpdateBlockInput stores every field unchanged. -/
def mkUpdateBlockInput (uuid content : String)
    (properties : Option (List (String × Json)) := none) : UpdateBlockInput :=
  { uuid := uuid, content := content, properties := properties }

/-! ## Domain normalizer (src/models/responses.py)

BlockEntity.from_api and PageEntity.from_api read fields with dict.get
and hand them to a pydantic model; a value of the wrong type makes pydantic
raise ValidationError. A computation that raises is modelled as none. -/

/-- A pydantic str field fed from data.get(key, the empty string): absent
becomes the empty string, a string passes, any other value (null included)
fails validation. -/
def pyStrDefault (m : List (String × Json)) (key : String) : Option String :=
  match jget m key with
  | none => some ""
  | some (Json.str s) => some s
  | some _ => none

/-- A pydantic optional str field fed from data.get(key): absent or null
becomes None, a string passes, any other value fails validation. -/
def pyOptStr (m : List (String × Json)) (key : String) : Option (Option String) :=
  match jget m key with
  | none => some none
  | some Json.null => some none
  | some (Json.str s) => some (some s)
  | some _ => none

/-- A pydantic optional int field fed from data.get(key). -/
def pyOptInt (m : List (String × Json)) (key : String) : Option (Option Int) :=
  match jget m key with
  | none => some none
  | some Json.null => some none
  | some (Json.num n) => some (some n)
  | some _ => none

/-- A pydantic dict-or-int field fed from data.get(key, the empty dict),
as used for the page reference of a block. -/
def pyDictOrInt (m : List (String × Json)) (key : String) : Option Json :=
  match jget m key with
  | none => some (Json.obj [])
  | some (Json.obj o) => some (Json.obj o)
  | some (Json.num n) => some (Json.num n)
  | some _ => none

/-- The parent field of a block: data.get with no default, optional
dict-or-int, so absent and null both become None. -/
def pyParentField (m : List (String × Json)) : Option (Option Json) :=
  match jget m "parent" with
  | none => some none
  | some Json.null => some none
  | some (Json.obj o) => some (some (Json.obj o))
  | some (Json.num n) => some (some (Json.num n))
  | some _ => none

/-- A pydantic dict field fed from data.get(key, the empty dict). -/
def pyProps (m : List (String × Json)) (key : String) : Option (List (String × Json)) :=
  match jget m key with
  | none => some []
  | some (Json.obj o) => some o
  | some _ => none

/-- Validation of a dict whose values must all be strings, for the
properties_text_values field of a page. -/
def strEntries : List (String × Json) → Option (List (String × String))
  | [] => some []
  | (k, Json.str v) :: rest => (strEntries rest).map (fun r => (k, v) :: r)
  | _ => none

/-- A pydantic dict of str to str field fed from data.get(key, empty). -/
def pyStrMap (m : List (String × Json)) (key : String) : Option (List (String × String)) :=
  match jget m key with
  | none => some []
  | some (Json.obj o) => strEntries o
  | some _ => none

/-- A pydantic optional str-or-int field fed from data.get(key), as used
for the page timestamps. -/
def pyStrOrInt (m : List (String × Json)) (key : String) : Option (Option Json) :=
  match jget m key with
  | none => some none
  | some Json.null => some none
  | some (Json.str s) => some (some (Json.str s))
  | some (Json.num n) => some (some (Json.num n))
  | some _ => none

/-- The raw value iterated by the children list comprehension in
BlockEntity.from_api: data.get(children, empty list). Iterating a string
or a dict yields characters or keys, none of which are dicts, so those
cases contribute no children; a number, boolean or null is not iterable
and raises TypeError. -/
def rawChildrenElems (m : List (String × Json)) : Option (List Json) :=
  match jget m "children" with
  | none => some []
  | some (Json.arr l) => some l
  | some (Json.str _) => some []
  | some (Json.obj _) => some []
  | some _ => none

mutual

/-- Size of a JSON value, used to bound the recursion depth of the block
normalizer. -/
def Json.size : Json → Nat
  | Json.null => 1
  | Json.boolean _ => 1
  | Json.num _ => 1
  | Json.str _ => 1
  | Json.arr xs => 1 + Json.sizeList xs
  | Json.obj fs => 1 + Json.sizeFields fs

/-- Total size of a list of JSON values. -/
def Json.sizeList : List Json → Nat
  | [] => 0
  | x :: xs => Json.size x + Json.sizeList xs

/-- Total size of a JSON object field list. -/
def Json.sizeFields : List (String × Json) → Nat
  | [] => 0
  | (_, v) :: fs => Json.size v + Json.sizeFields fs

end

/-- The Block entity produced by the normalizer. -/
inductive BlockEntity where
  | mk (uuid : String) (content : String) (page : Json) (parent : Option Json)
      (children : List BlockEntity) (properties : List (String × Json))
      (marker : Option String) (priority : Option String)

/-- Uuid of a Block. -/
def BlockEntity.uuid : BlockEntity → String
  | BlockEntity.mk u _ _ _ _ _ _ _ => u

/-- Content of a Block. -/
def BlockEntity.content : BlockEntity → String
  | BlockEntity.mk _ c _ _ _ _ _ _ => c

/-- Page reference of a Block. -/
def BlockEntity.page : BlockEntity → Json
  | BlockEntity.mk _ _ p _ _ _ _ _ => p

/-- Parent reference of a Block. -/
def BlockEntity.parent : BlockEntity → Option Json
  | BlockEntity.mk _ _ _ p _ _ _ _ => p

/-- Children of a Block. -/
def BlockEntity.children : BlockEntity → List BlockEntity
  | BlockEntity.mk _ _ _ _ cs _ _ _ => cs

/-- Properties of a Block. -/
def BlockEntity.properties : BlockEntity → List (String × Json)
  | BlockEntity.mk _ _ _ _ _ ps _ _ => ps

/-- Marker of a Block. -/
def BlockEntity.marker : BlockEntity → Option String
  | BlockEntity.mk _ _ _ _ _ _ mkr _ => mkr

/-- Priority of a Block. -/
def BlockEntity.priorityTag : BlockEntity → Option String
  | BlockEntity.mk _ _ _ _ _ _ _ p => p

/-- One step of the children comprehension of BlockEntity.from_api:
normalize one entry with f and prepend it to the entries already
collected; a failure anywhere propagates. -/
def childStep (f : Json → Option BlockEntity) (c : Json)
    (acc : Option (List BlockEntity)) : Option (List BlockEntity) := do
  let bs ← acc
  let b ← f c
  pure (b :: bs)

/-- BlockEntity.from_api on a dict, with fuel bounding the recursion
depth; the wrapper blockFromApi supplies enough fuel for any input. The
children comprehension keeps only the entries that are dicts and
normalizes each recursively; every field then passes pydantic validation
with the defaults written in the model. -/
def blockFromApiF : Nat → List (String × Json) → Option BlockEntity
  | 0, _ => none
  | fuel + 1, m => do
      let rawCh ← rawChildrenElems m
      let children ← (rawCh.filter Json.isObj).foldr
        (childStep (fun c => blockFromApiF fuel c.objFields)) (some [])
      let uuid ← pyStrDefault m "uuid"
      let content ← pyStrDefault m "content"
      let page ← pyDictOrInt m "page"
      let parent ← pyParentField m
      let properties ← pyProps m "properties"
      let marker ← pyOptStr m "marker"
      let priorityVal ← pyOptStr m "priority"
      pure (BlockEntity.mk uuid content page parent children properties marker priorityVal)

/-- BlockEntity.from_api on a dict, fuel instantiated. -/
def blockFromApi (m : List (String × Json)) : Option BlockEntity :=
  blockFromApiF (Json.sizeFields m + 1) m

/-- BlockEntity.from_api on an arbitrary JSON value: a non-dict has no
get attribute, so the call raises AttributeError. -/
def blockFromApiJson : Json → Option BlockEntity
  | Json.obj m => blockFromApi m
  | _ => none

/-- Well-typedness of a raw block map, with the same fuel discipline as
the normalizer: every field that is present has the type its pydantic
declaration accepts, the children value is iterable, and every child that
is a dict is recursively well-typed. This is exactly the condition under
which no validator of BlockEntity.from_api fails. -/
def wellTypedF : Nat → List (String × Json) → Bool
  | 0, _ => false
  | fuel + 1, m =>
      match rawChildrenElems m with
      | none => false
      | some rawCh =>
          (rawCh.filter Json.isObj).all (fun c => wellTypedF fuel c.objFields) &&
          ((pyStrDefault m "uuid").isSome &&
           ((pyStrDefault m "content").isSome &&
            ((pyDictOrInt m "page").isSome &&
             ((pyParentField m).isSome &&
              ((pyProps m "properties").isSome &&
               ((pyOptStr m "marker").isSome &&
                (pyOptStr m "priority").isSome))))))

/-- Well-typedness of a raw block map, fuel instantiated as in
blockFromApi. -/
def wellTypedFields (m : List (String × Json)) : Bool :=
  wellTypedF (Json.sizeFields m + 1) m

/-- The Page entity produced by the normalizer. -/
structure PageEntity where
  uuid : String
  name : String
  originalName : Option String
  journalDay : Option Int
  properties : List (String × Json)
  propertiesTextValues : List (String × String)
  updatedAt : Option Json
  createdAt : Option Json

/-- PageEntity.from_api on an arbitrary JSON value: a non-dict raises
AttributeError at the first data.get, a dict is validated field by field
with the documented defaults. -/
def pageFromApi : Json → Option PageEntity
  | Json.obj m => do
      let uuid ← pyStrDefault m "uuid"
      let name ← pyStrDefault m "name"
      let originalName ← pyOptStr m "originalName"
      let journalDay ← pyOptInt m "journalDay"
      let properties ← pyProps m "properties"
      let ptv ← pyStrMap m "propertiesTextValues"
      let updatedAt ← pyStrOrInt m "updatedAt"
      let createdAt ← pyStrOrInt m "createdAt"
      pure { uuid := uuid, name := name, originalName := originalName,
             journalDay := journalDay, properties := properties,
             propertiesTextValues := ptv, updatedAt := updatedAt,
             createdAt := createdAt }
  | _ => none

/-! ## Operation services (src/services) -/

/-- A list comprehension applying PageEntity.from_api to every entry in
order; a failure anywhere propagates. -/
def mapPages : List Json → Option (List PageEntity)
  | [] => some []
  | r :: rest => do
      let p ← pageFromApi r
      let ps ← mapPages rest
      pure (p :: ps)

/-- PageService.get_all on the raw list returned by the client: a plain
list comprehension applying PageEntity.from_api to every entry, with no
guard, so a malformed entry propagates its exception. -/
def pagesGetAll (results : List Json) : Option (List PageEntity) :=
  mapPages results

/-- A list comprehension applying BlockEntity.from_api to every entry in
order; a failure anywhere propagates. -/
def mapBlocks : List Json → Option (List BlockEntity)
  | [] => some []
  | r :: rest => do
      let b ← blockFromApiJson r
      let bs ← mapBlocks rest
      pure (b :: bs)

/-- BlockService.get_page_blocks on the raw client result: a non-list
yields the empty list; a list keeps its dict entries, and if any entry was
not a dict the whole result is the empty list; otherwise every dict is
normalized (a normalization failure still propagates). -/
def blocksGetPageBlocks (raw : Json) : Option (List BlockEntity) :=
  match raw with
  | Json.arr l =>
      let dictResults := l.filter Json.isObj
      if dictResults.length ≠ l.length then some []
      else mapBlocks dictResults
  | _ => some []

/-- Row normalization inside QueryService.get_tasks: a non-empty list row
is replaced by its first element. -/
def unwrapRow : Json → Json
  | Json.arr (x :: _) => x
  | row => row

/-- Row normalization inside QueryService.get_tasks: unwrap each row and
keep only the dicts. -/
def normalizeRows (rows : List Json) : List Json :=
  rows.filterMap (fun row =>
    let v := unwrapRow row
    if Json.isObj v then some v else none)

/-- Whether row.get(key) equals the wanted string. -/
def rowFieldEq (r : Json) (key val : String) : Bool :=
  match r with
  | Json.obj m =>
      match jget m key with
      | some (Json.str s) => s = val
      | _ => false
  | _ => false

/-- QueryService.get_tasks after the remote query returned rows: normalize
the rows, then filter by marker and then by priority, each filter applied
only when the corresponding input field is truthy (a non-empty string). -/
def getTasks (rows : List Json) (marker priorityF : Option String) : List Json :=
  let normalized := normalizeRows rows
  let afterMarker :=
    match marker with
    | some mk => if mk = "" then normalized
                 else normalized.filter (fun r => rowFieldEq r "marker" mk)
    | none => normalized
  match priorityF with
  | some p => if p = "" then afterMarker
              else afterMarker.filter (fun r => rowFieldEq r "priority" p)
  | none => afterMarker

/-- Modelled from the spec: the §8 task filter predicate, a row matches
when its marker equals the requested marker and its priority equals the
requested priority, each condition imposed only for a given filter. -/
def specTaskMatch (marker priorityF : Option String) (r : Json) : Bool :=
  (match marker with
   | none => true
   | some mk => rowFieldEq r "marker" mk) &&
  (match priorityF with
   | none => true
   | some p => rowFieldEq r "priority" p)

/-! ## Named concrete inputs used by the testable properties -/

/-- Error carried by a failed classification, used to name the failure of
the last attempt in the retry theorems. -/
def errOf : Except LogseqError Json → LogseqError
  | Except.error er => er
  | Except.ok _ => LogseqError.apiError ""

/-- The raw block of the §8 block tree round trip property: uuid b1,
content x, one well-formed child b2 and one child that is not a map. -/
def rawBlockB1 : List (String × Json) :=
  [("uuid", Json.str "b1"), ("content", Json.str "x"),
   ("children", Json.arr
     [Json.obj [("uuid", Json.str "b2"), ("content", Json.str "y"),
                ("children", Json.arr [])],
      Json.str "not-a-map"])]

/-- A task row as returned by the tasks query, already unwrapped. -/
def taskRow (marker priorityF content : String) : Json :=
  Json.obj [("marker", Json.str marker), ("priority", Json.str priorityF),
            ("content", Json.str content)]

/-- The three rows of the §8 task filter property. -/
def taskRows : List Json :=
  [taskRow "TODO" "A" "t1", taskRow "DOING" "B" "t2", taskRow "TODO" "A" "t3"]

/-- The raw list of the §8 bulk all-or-nothing property: one well-formed
page map and one entry that is not a map. -/
def rawPageList : List Json :=
  [Json.obj [("uuid", Json.str "p1")], Json.str "bad-entry"]

/-! ## Retry loop lemmas -/

/-- When every attempt fails, the tenacity loop started at attempt k with
fuel matching the remaining budget runs through the budget and returns the
failure of the last attempt. -/
theorem tenacityGo_all_fail (outcome : Nat → Except LogseqError Json)
    (e : Nat → LogseqError) (he : ∀ j, outcome j = Except.error (e j)) :
    ∀ fuel k stopAfter, 1 ≤ fuel → k + fuel = stopAfter →
      tenacityGo outcome stopAfter k fuel =
        (Except.error (e (stopAfter - 1)), stopAfter) := by
  intro fuel
  induction fuel with
  | zero => intro k s h1 _; exact absurd h1 (by omega)
  | succ f ih =>
    intro k s _ hks
    rcases Nat.eq_zero_or_pos f with hf | hf
    · subst hf
      have hs : s = k + 1 := by omega
      subst hs
      simp [tenacityGo, he k]
    · have hlt : ¬ (s ≤ k + 1) := by omega
      have hrec := ih (k + 1) s (by omega) (by omega)
      simp [tenacityGo, he k, hlt, hrec]

/-- When every attempt fails, a run of the full loop makes max(stop, 1)
attempts and surfaces the failure of the last one. -/
theorem tenacityRun_all_fail (outcome : Nat → Except LogseqError Json)
    (e : Nat → LogseqError) (he : ∀ j, outcome j = Except.error (e j))
    (stopAfter : Nat) :
    tenacityRun outcome stopAfter =
      (Except.error (e (max stopAfter 1 - 1)), max stopAfter 1) := by
  rcases Nat.eq_zero_or_pos stopAfter with h0 | hpos
  · subst h0
    simp [tenacityRun, tenacityGo, he 0]
  · have hmax : max stopAfter 1 = stopAfter := by omega
    rw [tenacityRun, tenacityGo_all_fail outcome e he stopAfter 0 stopAfter (by omega) (by omega),
        hmax]

/-! ## Claim theorems -/

/-- C1: the claim states that an HTTP error status on the first attempt
makes the call invoke the backend exactly once and raise immediately. The
code disagrees: the tenacity loop is created without a retry predicate,
so an APIError raised for HTTP 404 is retried like any exception. This
theorem evaluates the model at the failing input: with the default
max_retries of 3 and a backend answering HTTP 404 with body Not Found on
every attempt, the backend is invoked 3 times, not once, and only then is
RemoteAPIFailure with the 404 status surfaced. -/
theorem http404_is_retried_three_times :
    (makeRequest (mkProfile "http://localhost:12315" "token")
      "logseq.Editor.getBlock" [Json.str "b1"] none
      (fun _ => AttemptResult.httpResponse 404 "Not Found" none)).attempts = 3 ∧
    (makeRequest (mkProfile "http://localhost:12315" "token")
      "logseq.Editor.getBlock" [Json.str "b1"] none
      (fun _ => AttemptResult.httpResponse 404 "Not Found" none)).attempts ≠ 1 ∧
    (makeRequest (mkProfile "http://localhost:12315" "token")
      "logseq.Editor.getBlock" [Json.str "b1"] none
      (fun _ => AttemptResult.httpResponse 404 "Not Found" none)).result =
      Except.error (LogseqError.apiError "HTTP 404: Not Found") :=
  ⟨rfl, by decide, rfl⟩

/-- C2 counterexample: the claim quantifies over every configured
max_retries N and predicts exactly N backend invocations, but a client
configured with max_retries = 0 still invokes the backend once, because
the tenacity stop condition is only evaluated after a completed attempt. -/
theorem retry_bound_fails_at_zero :
    (makeRequest (mkProfile "http://localhost:12315" "token" 10 0) "m" [] none
      (fun _ => AttemptResult.networkRaised)).attempts = 1 ∧
    (makeRequest (mkProfile "http://localhost:12315" "token" 10 0) "m" [] none
      (fun _ => AttemptResult.networkRaised)).attempts ≠ 0 :=
  ⟨rfl, by decide⟩

/-- C2 amended: with max_retries = N and a backend raising a transport
layer failure on every attempt, a call invokes the backend exactly
max(N, 1) times, surfaces the classification of the last attempt, and the
surfaced error is a ConnectionFailure. -/
theorem retry_bound_transport_failures (url key : String) (t : Int) (n : Nat)
    (method : String) (args : List Json) (tov : Option Int)
    (backend : Nat → AttemptResult)
    (h : ∀ k, backend k = AttemptResult.networkRaised ∨
              backend k = AttemptResult.timeoutRaised) :
    (makeRequest (mkProfile url key t n) method args tov backend).attempts = max n 1 ∧
    (makeRequest (mkProfile url key t n) method args tov backend).result =
      classifyAttempt (rstripSlash url) (effectiveTimeout t tov)
        (backend (max n 1 - 1)) ∧
    ∃ msg, (makeRequest (mkProfile url key t n) method args tov backend).result =
      Except.error (LogseqError.connectionError msg) := by
  have he : ∀ j,
      classifyAttempt (rstripSlash url) (effectiveTimeout t tov) (backend j) =
        Except.error (errOf (classifyAttempt (rstripSlash url)
          (effectiveTimeout t tov) (backend j))) := by
    intro j
    rcases h j with hj | hj <;> rw [hj] <;> rfl
  have hrun := tenacityRun_all_fail
    (fun k => classifyAttempt (rstripSlash url) (effectiveTimeout t tov) (backend k))
    (fun j => errOf (classifyAttempt (rstripSlash url)
      (effectiveTimeout t tov) (backend j))) he n
  have hres : (makeRequest (mkProfile url key t n) method args tov backend).result =
      (tenacityRun (fun k => classifyAttempt (rstripSlash url)
        (effectiveTimeout t tov) (backend k)) n).1 := rfl
  have hatt : (makeRequest (mkProfile url key t n) method args tov backend).attempts =
      (tenacityRun (fun k => classifyAttempt (rstripSlash url)
        (effectiveTimeout t tov) (backend k)) n).2 := rfl
  refine ⟨?_, ?_, ?_⟩
  · rw [hatt, hrun]
  · rw [hres, hrun, ← he (max n 1 - 1)]
  · rw [hres, hrun]
    rcases h (max n 1 - 1) with hj | hj <;> rw [hj] <;> exact ⟨_, rfl⟩

/-- C2 amended witness at N = 3 with a backend that always raises a
network error. -/
theorem retry_bound_transport_failures_witness :
    (makeRequest (mkProfile "http://localhost:12315" "token" 10 3) "m" [] none
      (fun _ => AttemptResult.networkRaised)).attempts = max 3 1 ∧
    (makeRequest (mkProfile "http://localhost:12315" "token" 10 3) "m" [] none
      (fun _ => AttemptResult.networkRaised)).result =
      classifyAttempt (rstripSlash "http://localhost:12315")
        (effectiveTimeout 10 none) ((fun _ => AttemptResult.networkRaised) (max 3 1 - 1)) ∧
    ∃ msg, (makeRequest (mkProfile "http://localhost:12315" "token" 10 3) "m" [] none
      (fun _ => AttemptResult.networkRaised)).result =
      Except.error (LogseqError.connectionError msg) :=
  retry_bound_transport_failures "http://localhost:12315" "token" 10 3 "m" [] none
    (fun _ => AttemptResult.networkRaised) (fun _ => Or.inl rfl)

/-- C5: for every method name and argument list, the request body sent to
the remote side is exactly the JSON object with the key method bound to
the method name and the key args bound to the argument array, in that
order, posted to the /api path; this holds for every profile, timeout
override and backend, with empty and nested argument lists included. -/
theorem wire_shape_invariant (profile : ConnectionProfile) (method : String)
    (args : List Json) (tov : Option Int) (backend : Nat → AttemptResult) :
    (makeRequest profile method args tov backend).request.payload =
      Json.obj [("method", Json.str method), ("args", Json.arr args)] ∧
    (makeRequest profile method args tov backend).request.path = "/api" :=
  ⟨rfl, rfl⟩

/-- C6: classification of one attempt, in source order. A 401 or 403
status yields AuthenticationFailure; any other status of at least 400
yields RemoteAPIFailure whose message carries the status code and the
response body truncated to at most 500 characters; a success status whose
body did not parse as JSON yields RemoteAPIFailure naming invalid JSON;
otherwise the parsed body is returned. -/
theorem attempt_classification_order (status : Nat) (text : String)
    (parsed : Option Json) (base : String) (t : Int) :
    ((status = 401 ∨ status = 403) →
      classifyAttempt base t (AttemptResult.httpResponse status text parsed) =
        Except.error (LogseqError.authenticationError ("HTTP " ++ toString status))) ∧
    (status ≠ 401 → status ≠ 403 → 400 ≤ status →
      classifyAttempt base t (AttemptResult.httpResponse status text parsed) =
        Except.error (LogseqError.apiError
          ("HTTP " ++ toString status ++ ": " ++ truncate500 text)) ∧
      (truncate500 text).length ≤ 500) ∧
    (status < 400 → parsed = none →
      classifyAttempt base t (AttemptResult.httpResponse status text parsed) =
        Except.error (LogseqError.apiError "Invalid JSON response from Logseq API")) ∧
    (∀ j, status < 400 → parsed = some j →
      classifyAttempt base t (AttemptResult.httpResponse status text parsed) =
        Except.ok j) := by
  refine ⟨?_, ?_, ?_, ?_⟩
  · intro h
    simp [classifyAttempt, h]
  · intro h1 h3 h4
    constructor
    · have hcond : ¬ (status = 401 ∨ status = 403) := by tauto
      simp [classifyAttempt, hcond, h4]
    · have hlen : (truncate500 text).length = (text.toList.take 500).length := rfl
      rw [hlen]
      exact List.length_take_le 500 text.toList
  · intro hlt hp
    have hcond : ¬ (status = 401 ∨ status = 403) := by omega
    have h4 : ¬ (400 ≤ status) := by omega
    simp [classifyAttempt, hcond, h4, hp]
  · intro j hlt hp
    have hcond : ¬ (status = 401 ∨ status = 403) := by omega
    have h4 : ¬ (400 ≤ status) := by omega
    simp [classifyAttempt, hcond, h4, hp]

/-- C6 witness covering all four classification branches at concrete
inputs: status 403, status 404 with a body, a success status with an
unparseable body, and a success status with a parsed body. -/
theorem attempt_classification_order_witness :
    classifyAttempt "u" 10 (AttemptResult.httpResponse 403 "x" none) =
      Except.error (LogseqError.authenticationError ("HTTP " ++ toString 403)) ∧
    classifyAttempt "u" 10 (AttemptResult.httpResponse 404 "Not Found" none) =
      Except.error (LogseqError.apiError
        ("HTTP " ++ toString 404 ++ ": " ++ truncate500 "Not Found")) ∧
    classifyAttempt "u" 10 (AttemptResult.httpResponse 200 "oops" none) =
      Except.error (LogseqError.apiError "Invalid JSON response from Logseq API") ∧
    classifyAttempt "u" 10 (AttemptResult.httpResponse 200 "true"
        (some (Json.boolean true))) = Except.ok (Json.boolean true) :=
  ⟨(attempt_classification_order 403 "x" none "u" 10).1 (Or.inr rfl),
   ((attempt_classification_order 404 "Not Found" none "u" 10).2.1
      (by decide) (by decide) (by decide)).1,
   (attempt_classification_order 200 "oops" none "u" 10).2.2.1 (by decide) rfl,
   (attempt_classification_order 200 "true" (some (Json.boolean true)) "u" 10).2.2.2
      (Json.boolean true) (by decide) rfl⟩

/-- C10: a per call timeout override of zero, like a missing override,
does not displace the profile default: the request is issued with the
profile timeout, and a non-zero override is the only way to change the
timeout used. -/
theorem falsy_timeout_override_ignored (profile : ConnectionProfile)
    (method : String) (args : List Json) (backend : Nat → AttemptResult) :
    (makeRequest profile method args (some 0) backend).request.timeoutUsed =
      profile.timeout ∧
    (makeRequest profile method args none backend).request.timeoutUsed =
      profile.timeout ∧
    (∀ t : Int, t ≠ 0 →
      (makeRequest profile method args (some t) backend).request.timeoutUsed = t) := by
  refine ⟨rfl, rfl, ?_⟩
  intro t ht
  show effectiveTimeout profile.timeout (some t) = t
  simp [effectiveTimeout, ht]

/-- C10 witness: with a profile timeout of 10, an override of 0 keeps 10
and an override of 30 is used. -/
theorem falsy_timeout_override_ignored_witness :
    (makeRequest (mkProfile "http://localhost:12315" "token" 10 3) "m" []
      (some 0) (fun _ => AttemptResult.networkRaised)).request.timeoutUsed =
      (mkProfile "http://localhost:12315" "token" 10 3).timeout ∧
    (makeRequest (mkProfile "http://localhost:12315" "token" 10 3) "m" []
      (some 30) (fun _ => AttemptResult.networkRaised)).request.timeoutUsed = 30 :=
  ⟨(falsy_timeout_override_ignored (mkProfile "http://localhost:12315" "token" 10 3)
      "m" [] (fun _ => AttemptResult.networkRaised)).1,
   (falsy_timeout_override_ignored (mkProfile "http://localhost:12315" "token" 10 3)
      "m" [] (fun _ => AttemptResult.networkRaised)).2.2 30 (by decide)⟩

/-- C3 counterexample: the client does not ship the bare method name of
the §4.3 table; inserting a block calls the remote method name prefixed
with logseq., so the table name Editor.insertBlock is never the method
string handed to the transport layer. -/
theorem table_method_name_has_prefix_counterexample :
    (clientInsertBlock none "x" []).method = "logseq.Editor.insertBlock" ∧
    (clientInsertBlock none "x" []).method ≠ "Editor.insertBlock" :=
  ⟨rfl, by decide⟩

/-- C3 amended: every operation of the §4.3 table calls the table method
name prefixed with logseq., with exactly the positional argument order
listed in the table; for get all pages the repo argument is shipped as a
singleton when present and non-empty, and omitted otherwise. -/
theorem table_method_names_and_argument_order :
    (∀ p c o, clientInsertBlock p c o =
      ⟨"logseq." ++ "Editor.insertBlock",
       [jsonOfOptionStr p, Json.str c, Json.obj o]⟩) ∧
    (∀ u c o, clientUpdateBlock u c o =
      ⟨"logseq." ++ "Editor.updateBlock", [Json.str u, Json.str c, Json.obj o]⟩) ∧
    (∀ u, clientDeleteBlock u = ⟨"logseq." ++ "Editor.removeBlock", [Json.str u]⟩) ∧
    (∀ u, clientGetBlock u = ⟨"logseq." ++ "Editor.getBlock", [Json.str u]⟩) ∧
    (∀ u tu o, clientMoveBlock u tu o =
      ⟨"logseq." ++ "Editor.moveBlock", [Json.str u, Json.str tu, Json.obj o]⟩) ∧
    (∀ p bs, clientInsertBatchBlocks p bs =
      ⟨"logseq." ++ "Editor.insertBatchBlock", [Json.str p, Json.arr bs]⟩) ∧
    (∀ pn, clientGetPageBlocksTree pn =
      ⟨"logseq." ++ "Editor.getPageBlocksTree", [Json.str pn]⟩) ∧
    (∀ n props o, clientCreatePage n props o =
      ⟨"logseq." ++ "Editor.createPage",
       [Json.str n, Json.obj (match props with | none => [] | some p => p),
        Json.obj o]⟩) ∧
    (∀ ident ic, clientGetPage ident ic =
      ⟨"logseq." ++ "Editor.getPage",
       [Json.str ident, Json.obj [("includeChildren", Json.boolean ic)]]⟩) ∧
    (clientGetAllPages none = ⟨"logseq." ++ "Editor.getAllPages", []⟩) ∧
    (∀ r, r ≠ "" → clientGetAllPages (some r) =
      ⟨"logseq." ++ "Editor.getAllPages", [Json.str r]⟩) ∧
    (∀ n, clientDeletePage n = ⟨"logseq." ++ "Editor.deletePage", [Json.str n]⟩) ∧
    (∀ o n, clientRenamePage o n =
      ⟨"logseq." ++ "Editor.renamePage", [Json.str o, Json.str n]⟩) ∧
    (∀ q ins, clientQ q ins = ⟨"logseq." ++ "DB.q", Json.str q :: ins⟩) ∧
    (∀ q ins, clientDatascriptQuery q ins =
      ⟨"logseq." ++ "DB.datascriptQuery", Json.str q :: ins⟩) ∧
    (clientGetCurrentGraph = ⟨"logseq." ++ "App.getCurrentGraph", []⟩) ∧
    (clientGitStatus = ⟨"logseq." ++ "Git.status", []⟩) := by
  refine ⟨fun _ _ _ => rfl, fun _ _ _ => rfl, fun _ => rfl, fun _ => rfl,
    fun _ _ _ => rfl, fun _ _ => rfl, fun _ => rfl, fun _ _ _ => rfl,
    fun _ _ => rfl, rfl, ?_, fun _ => rfl, fun _ _ => rfl, fun _ _ => rfl,
    fun _ _ => rfl, rfl, rfl⟩
  intro r hr
  simp [clientGetAllPages, hr]

/-- C3 amended witness: the get all pages row at the concrete repo
my-repo, discharging the non-empty hypothesis. -/
theorem table_method_names_and_argument_order_witness :
    clientGetAllPages (some "my-repo") =
      ⟨"logseq." ++ "Editor.getAllPages", [Json.str "my-repo"]⟩ :=
  table_method_names_and_argument_order.2.2.2.2.2.2.2.2.2.2.1 "my-repo" (by decide)

/-- C4 counterexample: the bulk page normalizer of PageService.get_all has
no all-or-nothing guard; on the §8 list with one well-formed page map and
one entry that is not a map it raises AttributeError (modelled as none)
instead of returning the empty list. -/
theorem bulk_pages_raise_counterexample :
    pagesGetAll rawPageList = none ∧
    pagesGetAll rawPageList ≠ some [] := by
  refine ⟨rfl, ?_⟩
  intro h
  rw [show pagesGetAll rawPageList = none from rfl] at h
  exact Option.noConfusion h

/-- C4 amended: the all-or-nothing policy holds for the bulk block
normalizer, which returns the empty list whenever any entry of the raw
list is not a map; the bulk page normalizer instead maps the page
normalizer over the list with no guard, so any entry that is not a map
makes the whole call raise. -/
theorem bulk_all_or_nothing_blocks_pages_split :
    (∀ l x, x ∈ l → Json.isObj x = false →
      blocksGetPageBlocks (Json.arr l) = some []) ∧
    (∀ l x, x ∈ l → Json.isObj x = false → pagesGetAll l = none) := by
  constructor
  · intro l x hx hobj
    have hlt : (l.filter Json.isObj).length < l.length := by
      apply List.length_filter_lt_length_iff_exists.mpr
      exact ⟨x, hx, by simp [hobj]⟩
    have hne : (l.filter Json.isObj).length ≠ l.length := Nat.ne_of_lt hlt
    simp [blocksGetPageBlocks, hne]
  · intro l
    induction l with
    | nil => intro x hx; cases hx
    | cons a as ih =>
      intro x hx hobj
      rcases List.mem_cons.mp hx with hxa | hmem
      · subst hxa
        have hnone : pageFromApi x = none := by
          cases x <;> simp_all [pageFromApi, Json.isObj]
        simp [pagesGetAll, mapPages, hnone]
      · have hrest : pagesGetAll as = none := ih x hmem hobj
        rw [pagesGetAll] at hrest
        cases hpa : pageFromApi a <;> simp [pagesGetAll, mapPages, hpa, hrest]

/-- C4 amended witness at the §8 list: the block path returns the empty
list, the page path raises. -/
theorem bulk_all_or_nothing_blocks_pages_split_witness :
    blocksGetPageBlocks (Json.arr rawPageList) = some [] ∧
    pagesGetAll rawPageList = none :=
  ⟨bulk_all_or_nothing_blocks_pages_split.1 rawPageList (Json.str "bad-entry")
      (List.Mem.tail _ (List.Mem.head _)) rfl,
   bulk_all_or_nothing_blocks_pages_split.2 rawPageList (Json.str "bad-entry")
      (List.Mem.tail _ (List.Mem.head _)) rfl⟩

/-- C7 counterexample: the claim predicts that a type mismatch on the
uuid field coerces to the default empty string; in the code pydantic
validates the field and raises, so normalizing a map whose uuid is the
number 42 produces no Block at all, in particular not the defaulted one. -/
theorem uuid_type_mismatch_raises :
    blockFromApi [("uuid", Json.num 42)] = none ∧
    blockFromApi [("uuid", Json.num 42)] ≠
      some (BlockEntity.mk "" "" (Json.obj []) none [] [] none none) := by
  refine ⟨rfl, ?_⟩
  intro h
  rw [show blockFromApi [("uuid", Json.num 42)] = none from rfl] at h
  exact Option.noConfusion h

/-- Collecting the children comprehension succeeds as soon as every entry
normalizes. -/
theorem childStep_foldr_some (g : Json → Option BlockEntity) :
    ∀ l : List Json, (∀ c ∈ l, (g c).isSome) →
      ∃ bs : List BlockEntity, l.foldr (childStep g) (some []) = some bs := by
  intro l
  induction l with
  | nil => intro _; exact ⟨[], rfl⟩
  | cons c cs ih =>
    intro h
    obtain ⟨bs, hbs⟩ := ih (fun x hx => h x (List.mem_cons_of_mem _ hx))
    obtain ⟨b, hb⟩ := Option.isSome_iff_exists.mp (h c (List.mem_cons_self _ _))
    exact ⟨b :: bs, by simp [childStep, hbs, hb]⟩

/-- A successful children comprehension yields one Block per entry. -/
theorem childStep_foldr_length (g : Json → Option BlockEntity) :
    ∀ l : List Json, ∀ bs : List BlockEntity,
      l.foldr (childStep g) (some []) = some bs → bs.length = l.length := by
  intro l
  induction l with
  | nil =>
    intro bs h
    simp only [List.foldr_nil, Option.some_inj] at h
    subst h
    rfl
  | cons c cs ih =>
    intro bs h
    simp only [List.foldr_cons, childStep, Option.bind_eq_bind', Option.bind_eq_some',
      Option.pure_def, Option.some_inj] at h
    obtain ⟨bs', hbs', b, hb, rfl⟩ := h
    simp [ih bs' hbs']

/-- Decomposition of a successful normalization: every validator returned
a value and the Block is assembled from exactly those values. -/
theorem blockFromApi_some_elim (m : List (String × Json)) (b : BlockEntity)
    (h : blockFromApi m = some b) :
    ∃ rawCh children uuid content page parent props marker priorityV,
      rawChildrenElems m = some rawCh ∧
      (rawCh.filter Json.isObj).foldr
        (childStep (fun c => blockFromApiF (Json.sizeFields m) c.objFields))
        (some []) = some children ∧
      pyStrDefault m "uuid" = some uuid ∧
      pyStrDefault m "content" = some content ∧
      pyDictOrInt m "page" = some page ∧
      pyParentField m = some parent ∧
      pyProps m "properties" = some props ∧
      pyOptStr m "marker" = some marker ∧
      pyOptStr m "priority" = some priorityV ∧
      b = BlockEntity.mk uuid content page parent children props marker priorityV := by
  rw [blockFromApi] at h
  simp only [blockFromApiF, Option.bind_eq_bind', Option.bind_eq_some',
    Option.pure_def, Option.some_inj] at h
  obtain ⟨rawCh, hraw, children, hch, uuid, hu, content, hc, page, hpg, parent, hpar,
    props, hprops, marker, hmk, priorityV, hpr, hb⟩ := h
  exact ⟨rawCh, children, uuid, content, page, parent, props, marker, priorityV,
    hraw, hch, hu, hc, hpg, hpar, hprops, hmk, hpr, hb.symm⟩

/-- A well-typed map normalizes successfully, at every fuel level. -/
theorem blockFromApiF_isSome_of_wellTyped :
    ∀ fuel m, wellTypedF fuel m = true → (blockFromApiF fuel m).isSome := by
  intro fuel
  induction fuel with
  | zero => intro m h; simp [wellTypedF] at h
  | succ f ih =>
    intro m h
    rw [wellTypedF] at h
    cases hraw : rawChildrenElems m with
    | none => simp [hraw] at h
    | some rawCh =>
      simp only [hraw, Bool.and_eq_true, List.all_eq_true] at h
      obtain ⟨hch, hu, hc, hpg, hpar, hprops, hmk, hpr⟩ := h
      obtain ⟨children, hfold⟩ := childStep_foldr_some
        (fun c => blockFromApiF f c.objFields) (rawCh.filter Json.isObj)
        (fun c hcmem => ih c.objFields (hch c hcmem))
      obtain ⟨u, hu'⟩ := Option.isSome_iff_exists.mp hu
      obtain ⟨cv, hc'⟩ := Option.isSome_iff_exists.mp hc
      obtain ⟨pg, hpg'⟩ := Option.isSome_iff_exists.mp hpg
      obtain ⟨par, hpar'⟩ := Option.isSome_iff_exists.mp hpar
      obtain ⟨pr, hprops'⟩ := Option.isSome_iff_exists.mp hprops
      obtain ⟨mkv, hmk'⟩ := Option.isSome_iff_exists.mp hmk
      obtain ⟨pv, hpr'⟩ := Option.isSome_iff_exists.mp hpr
      simp [blockFromApiF, hraw, hfold, hu', hc', hpg', hpar', hprops', hmk', hpr']

/-- C7 amended: for every JSON map whose present fields are well typed
the normalizer returns a Block without raising; for every successful
normalization the missing optional fields carry their documented defaults
(uuid and content the empty string, page and properties empty maps,
parent, marker and priority null, children empty); for every map whose
children value is a JSON array the resulting children sequence has
exactly one Block per entry that is a map, the non-map entries silently
dropped, so the §8 example yields exactly the one child b2; and for every
map whose uuid or content value is present with a non-string type the
normalization raises a validation error instead of coercing to the
default. -/
theorem normalize_block_defaults_and_drops :
    (∀ m, wellTypedFields m = true → ∃ b, blockFromApi m = some b) ∧
    (∀ m b, blockFromApi m = some b →
      (jget m "uuid" = none → b.uuid = "") ∧
      (jget m "content" = none → b.content = "") ∧
      (jget m "page" = none → b.page = Json.obj []) ∧
      (jget m "parent" = none → b.parent = none) ∧
      (jget m "properties" = none → b.properties = []) ∧
      (jget m "marker" = none → b.marker = none) ∧
      (jget m "priority" = none → b.priorityTag = none) ∧
      (jget m "children" = none → b.children = [])) ∧
    (∀ m l b, jget m "children" = some (Json.arr l) → blockFromApi m = some b →
      b.children.length = (l.filter Json.isObj).length) ∧
    (∀ m v, jget m "uuid" = some v → (∀ s, v ≠ Json.str s) →
      blockFromApi m = none) ∧
    (∀ m v, jget m "content" = some v → (∀ s, v ≠ Json.str s) →
      blockFromApi m = none) ∧
    blockFromApi rawBlockB1 =
      some (BlockEntity.mk "b1" "x" (Json.obj []) none
        [BlockEntity.mk "b2" "y" (Json.obj []) none [] [] none none]
        [] none none) ∧
    blockFromApi [] =
      some (BlockEntity.mk "" "" (Json.obj []) none [] [] none none) := by
  refine ⟨?_, ?_, ?_, ?_, ?_, rfl, rfl⟩
  · intro m hm
    exact Option.isSome_iff_exists.mp
      (blockFromApiF_isSome_of_wellTyped (Json.sizeFields m + 1) m hm)
  · intro m b hb
    obtain ⟨rawCh, children, uuid, content, page, parent, props, marker, priorityV,
      hraw, hch, hu, hc, hpg, hpar, hprops, hmk, hpr, hb'⟩ :=
      blockFromApi_some_elim m b hb
    subst hb'
    refine ⟨?_, ?_, ?_, ?_, ?_, ?_, ?_, ?_⟩
    · intro hn
      have h2 : pyStrDefault m "uuid" = some "" := by simp [pyStrDefault, hn]
      have := hu.symm.trans h2
      simp only [Option.some_inj] at this
      simpa [BlockEntity.uuid] using this
    · intro hn
      have h2 : pyStrDefault m "content" = some "" := by simp [pyStrDefault, hn]
      have := hc.symm.trans h2
      simp only [Option.some_inj] at this
      simpa [BlockEntity.content] using this
    · intro hn
      have h2 : pyDictOrInt m "page" = some (Json.obj []) := by simp [pyDictOrInt, hn]
      have := hpg.symm.trans h2
      simp only [Option.some_inj] at this
      simpa [BlockEntity.page] using this
    · intro hn
      have h2 : pyParentField m = some none := by simp [pyParentField, hn]
      have := hpar.symm.trans h2
      simp only [Option.some_inj] at this
      simpa [BlockEntity.parent] using this
    · intro hn
      have h2 : pyProps m "properties" = some [] := by simp [pyProps, hn]
      have := hprops.symm.trans h2
      simp only [Option.some_inj] at this
      simpa [BlockEntity.properties] using this
    · intro hn
      have h2 : pyOptStr m "marker" = some none := by simp [pyOptStr, hn]
      have := hmk.symm.trans h2
      simp only [Option.some_inj] at this
      simpa [BlockEntity.marker] using this
    · intro hn
      have h2 : pyOptStr m "priority" = some none := by simp [pyOptStr, hn]
      have := hpr.symm.trans h2
      simp only [Option.some_inj] at this
      simpa [BlockEntity.priorityTag] using this
    · intro hn
      have h2 : rawChildrenElems m = some [] := by simp [rawChildrenElems, hn]
      have hr := hraw.symm.trans h2
      simp only [Option.some_inj] at hr
      subst hr
      simp only [List.filter_nil, List.foldr_nil, Option.some_inj] at hch
      subst hch
      rfl
  · intro m l b hjch hb
    obtain ⟨rawCh, children, uuid, content, page, parent, props, marker, priorityV,
      hraw, hch, hu, hc, hpg, hpar, hprops, hmk, hpr, hb'⟩ :=
      blockFromApi_some_elim m b hb
    subst hb'
    have h2 : rawChildrenElems m = some l := by simp [rawChildrenElems, hjch]
    have hr := hraw.symm.trans h2
    simp only [Option.some_inj] at hr
    subst hr
    have := childStep_foldr_length
      (fun c => blockFromApiF (Json.sizeFields m) c.objFields)
      (rawCh.filter Json.isObj) children hch
    simpa [BlockEntity.children] using this
  · intro m v hjv hns
    have hu0 : pyStrDefault m "uuid" = none := by
      cases v with
      | str s => exact absurd rfl (hns s)
      | null => simp [pyStrDefault, hjv]
      | boolean b => simp [pyStrDefault, hjv]
      | num n => simp [pyStrDefault, hjv]
      | arr xs => simp [pyStrDefault, hjv]
      | obj fs => simp [pyStrDefault, hjv]
    cases hb : blockFromApi m with
    | none => rfl
    | some b =>
      obtain ⟨rawCh, children, uuid, content, page, parent, props, marker, priorityV,
        hraw, hch, hu, hc, hpg, hpar, hprops, hmk, hpr, hb'⟩ :=
        blockFromApi_some_elim m b hb
      rw [hu0] at hu
      exact Option.noConfusion hu
  · intro m v hjv hns
    have hc0 : pyStrDefault m "content" = none := by
      cases v with
      | str s => exact absurd rfl (hns s)
      | null => simp [pyStrDefault, hjv]
      | boolean b => simp [pyStrDefault, hjv]
      | num n => simp [pyStrDefault, hjv]
      | arr xs => simp [pyStrDefault, hjv]
      | obj fs => simp [pyStrDefault, hjv]
    cases hb : blockFromApi m with
    | none => rfl
    | some b =>
      obtain ⟨rawCh, children, uuid, content, page, parent, props, marker, priorityV,
        hraw, hch, hu, hc, hpg, hpar, hprops, hmk, hpr, hb'⟩ :=
        blockFromApi_some_elim m b hb
      rw [hc0] at hc
      exact Option.noConfusion hc

/-- C7 amended witness: totality applied at the well-typed §8 map, the
uuid default read off the empty map, the children count of the §8 result
equal to the count of its map-shaped raw children, and the two concrete
type mismatch raises. -/
theorem normalize_block_defaults_and_drops_witness :
    (∃ b, blockFromApi rawBlockB1 = some b) ∧
    (BlockEntity.mk "" "" (Json.obj []) none [] [] none none).uuid = "" ∧
    (BlockEntity.mk "b1" "x" (Json.obj []) none
        [BlockEntity.mk "b2" "y" (Json.obj []) none [] [] none none]
        [] none none).children.length =
      ([Json.obj [("uuid", Json.str "b2"), ("content", Json.str "y"),
                  ("children", Json.arr [])],
        Json.str "not-a-map"].filter Json.isObj).length ∧
    blockFromApi [("uuid", Json.num 42)] = none ∧
    blockFromApi [("content", Json.boolean true)] = none :=
  ⟨normalize_block_defaults_and_drops.1 rawBlockB1 rfl,
   (normalize_block_defaults_and_drops.2.1 []
      (BlockEntity.mk "" "" (Json.obj []) none [] [] none none) rfl).1 rfl,
   normalize_block_defaults_and_drops.2.2.1 rawBlockB1
      [Json.obj [("uuid", Json.str "b2"), ("content", Json.str "y"),
                 ("children", Json.arr [])],
       Json.str "not-a-map"]
      (BlockEntity.mk "b1" "x" (Json.obj []) none
        [BlockEntity.mk "b2" "y" (Json.obj []) none [] [] none none]
        [] none none) rfl rfl,
   normalize_block_defaults_and_drops.2.2.2.1 [("uuid", Json.num 42)]
      (Json.num 42) rfl (fun _ h => Json.noConfusion h),
   normalize_block_defaults_and_drops.2.2.2.2.1 [("content", Json.boolean true)]
      (Json.boolean true) rfl (fun _ h => Json.noConfusion h)⟩

/-- C8 counterexample: the claim extends the double parenthesis unwrap to
every block reference field of every typed input, but UpdateBlockInput
declares no validator, so its uuid keeps the double parentheses. -/
theorem update_input_keeps_double_parens :
    (mkUpdateBlockInput "((abc-123))" "c").uuid = "((abc-123))" ∧
    (mkUpdateBlockInput "((abc-123))" "c").uuid ≠ "abc-123" :=
  ⟨rfl, by decide⟩

/-- Unwrapping lemma for the clean_block_refs validator: wrapping any
string in double parentheses and cleaning returns the original string. -/
theorem cleanBlockRef_unwraps (x : String) : cleanBlockRef ("((" ++ x ++ "))") = x := by
  obtain ⟨l⟩ := x
  show cleanBlockRef (String.mk ('(' :: '(' :: (l ++ [')', ')']))) = String.mk l
  have h1 : ('(' :: '(' :: (l ++ [')', ')'])).take 2 = ['(', '('] := rfl
  have h2 : ('(' :: '(' :: (l ++ [')', ')'])).reverse.take 2 = [')', ')'] := by
    have hrev : ('(' :: '(' :: (l ++ [')', ')'])).reverse
        = ')' :: ')' :: (l.reverse ++ ['(', '(']) := by
      simp
    rw [hrev]
    rfl
  have ht : (String.mk ('(' :: '(' :: (l ++ [')', ')']))).toList
      = '(' :: '(' :: (l ++ [')', ')']) := rfl
  have hlen : ('(' :: '(' :: (l ++ [')', ')'])).length - 4 = l.length := by
    simp [List.length_append]
  rw [cleanBlockRef, ht, if_pos ⟨h1, h2⟩]
  have hdrop : ('(' :: '(' :: (l ++ [')', ')'])).drop 2 = l ++ [')', ')'] := rfl
  rw [hdrop, hlen, List.take_left]

/-- C8 amended: the double parenthesis unwrap applies exactly to the two
validated fields of InsertBlockInput, parent_block and custom_uuid: there
any wrapped string is unwrapped, a plain string and a single
parenthesized string are unchanged; the uuid of UpdateBlockInput is
stored without any unwrapping. -/
theorem block_ref_unwrapping_scope :
    (∀ x : String, cleanBlockRef ("((" ++ x ++ "))") = x) ∧
    cleanBlockRef "abc-123" = "abc-123" ∧
    cleanBlockRef "(abc-123)" = "(abc-123)" ∧
    (∀ p c ipb bef cu props,
      (mkInsertBlockInput p c ipb bef cu props).parentBlock = p.map cleanBlockRef ∧
      (mkInsertBlockInput p c ipb bef cu props).customUuid = cu.map cleanBlockRef) ∧
    (∀ u c props, (mkUpdateBlockInput u c props).uuid = u) :=
  ⟨cleanBlockRef_unwraps, rfl, rfl, fun _ _ _ _ _ _ => ⟨rfl, rfl⟩, fun _ _ _ => rfl⟩

/-- C9 counterexample: the claim says the returned rows are exactly the
rows matching the requested marker; with the empty string requested as
marker the code skips the filter entirely (Python truthiness), returning
a row whose marker is TODO, while the matching set is empty. -/
theorem empty_marker_filter_skipped :
    getTasks [taskRow "TODO" "A" "t1"] (some "") none = [taskRow "TODO" "A" "t1"] ∧
    (normalizeRows [taskRow "TODO" "A" "t1"]).filter
      (specTaskMatch (some "") none) = [] ∧
    getTasks [taskRow "TODO" "A" "t1"] (some "") none ≠
      (normalizeRows [taskRow "TODO" "A" "t1"]).filter
        (specTaskMatch (some "") none) := by
  refine ⟨rfl, rfl, ?_⟩
  intro h
  rw [show getTasks [taskRow "TODO" "A" "t1"] (some "") none
        = [taskRow "TODO" "A" "t1"] from rfl,
      show (normalizeRows [taskRow "TODO" "A" "t1"]).filter
        (specTaskMatch (some "") none) = [] from rfl] at h
  exact List.noConfusion h

/-- C9 amended: whenever the marker and priority filters are not the
empty string, the rows returned by get_tasks are exactly the normalized
rows matching the given filters, in their original relative order: the
two sequential filters of the code equal one pass of the conjunctive §8
filter predicate. -/
theorem task_filter_exact (rows : List Json) (marker priorityF : Option String)
    (hm : marker ≠ some "") (hp : priorityF ≠ some "") :
    getTasks rows marker priorityF =
      (normalizeRows rows).filter (specTaskMatch marker priorityF) := by
  cases marker with
  | none =>
    cases priorityF with
    | none =>
      simp [getTasks]
      exact (List.filter_true _).symm.trans
        (List.filter_congr (fun r _ => by simp [specTaskMatch]))
    | some p =>
      have hpe : ¬ (p = "") := fun h => hp (by rw [h])
      simp [getTasks, hpe]
      exact List.filter_congr (fun r _ => by simp [specTaskMatch])
  | some mk =>
    have hme : ¬ (mk = "") := fun h => hm (by rw [h])
    cases priorityF with
    | none =>
      simp [getTasks, hme]
      exact List.filter_congr (fun r _ => by simp [specTaskMatch])
    | some p =>
      have hpe : ¬ (p = "") := fun h => hp (by rw [h])
      simp [getTasks, hme, hpe, List.filter_filter]
      exact List.filter_congr (fun r _ => by
        simp [specTaskMatch, Bool.and_comm])

/-- C9 amended witness at the §8 rows with marker TODO and priority A:
the two matching rows come back in order. -/
theorem task_filter_exact_witness :
    getTasks taskRows (some "TODO") (some "A") =
      (normalizeRows taskRows).filter (specTaskMatch (some "TODO") (some "A")) ∧
    getTasks taskRows (some "TODO") (some "A") =
      [taskRow "TODO" "A" "t1", taskRow "TODO" "A" "t3"] :=
  ⟨task_filter_exact taskRows (some "TODO") (some "A") (by decide) (by decide), rfl⟩

end LogseqMCP
